import Mathlib

/-!
Verification of the LangChain + Archestra example agent
(`platform/examples/langchain/agent.py`).

Python strings are modelled as lists of characters (`Str`), so that every
operation the program performs (`rstrip`, `split`, `lower`, slicing,
concatenation) is an executable Lean function that the kernel can evaluate
on concrete inputs.  Environment variables are modelled as `Option Str`
(unset = `none`); Python truthiness of a string value is `pyTruthy`.
Outbound HTTP is modelled by passing an oracle `HttpGet → HttpOutcome` and
recording every issued request in the result of the function, so "exactly one
outbound request" is a statement about the recorded request list.
-/

/-- Python strings as lists of characters. -/
abbrev Str := List Char

/-- Embed a Lean string literal into the model. -/
def str (s : String) : Str := s.data

/-- Python `str.split(sep)` for a one-character separator:
splitting the empty string yields `[[]]`, adjacent separators yield
empty segments, exactly as in Python. -/
def splitOnChar (sep : Char) : Str → List Str
  | [] => [[]]
  | c :: cs =>
    let rest := splitOnChar sep cs
    if c == sep then [] :: rest
    else match rest with
      | [] => [[c]]
      | r :: rs => (c :: r) :: rs

/-- Python `str.rstrip(ch)`: remove every trailing occurrence of `ch`. -/
def rstripChar (ch : Char) (s : Str) : Str :=
  (s.reverse.dropWhile (fun c => c == ch)).reverse

/-- ASCII lower-casing of one character, as Python `str.lower` does on
the ASCII provider names this program compares. -/
def lowerChar (c : Char) : Char :=
  if 65 ≤ c.toNat ∧ c.toNat ≤ 90 then Char.ofNat (c.toNat + 32) else c

/-- Python `str.lower()` on the model. -/
def pyLower (s : Str) : Str := s.map lowerChar

/-- Python truthiness of an optional string: `none` (unset) and the empty
string are falsy; a non-empty value is kept.  This models both
`if not api_key:` and the walrus `if token := os.getenv(...):`. -/
def pyTruthy : Option Str → Option Str
  | some s => if s.isEmpty then none else some s
  | none => none

/-- One outbound HTTP GET as issued by `requests.get(url, headers=headers,
timeout=10)`: the url, the header dictionary, and the timeout in seconds. -/
structure HttpGet where
  url : Str
  headers : List (Str × Str)
  timeout : Nat
deriving DecidableEq

/-- Outcome of one HTTP GET, seen through the calling code: either a 2xx
response whose JSON body optionally has `title` and `body` fields, or a
`requests.exceptions.RequestException` (covering connection failure and
the `raise_for_status` of a non-2xx answer) carrying `str(e)`. -/
inductive HttpOutcome where
  | success (titleField : Option Str) (bodyField : Option Str)
  | failure (errText : Str)
deriving DecidableEq

/-- What one tool invocation produced: the returned string, the outbound
requests it issued (in order), and the lines it printed to stdout. -/
structure ToolRun where
  result : Str
  requests : List HttpGet
  trace : List Str
deriving DecidableEq

/-- `issue_url.rstrip("/").split("/")`, the segment list the tool
validates (agent.py line 110). -/
def urlParts (issue_url : Str) : List Str :=
  splitOnChar '/' (rstripChar '/' issue_url)

/-- The rejection test of agent.py line 111:
`len(parts) < 7 or parts[2] != "github.com" or parts[5] != "issues"`. -/
def issueUrlRejected (issue_url : Str) : Bool :=
  (urlParts issue_url).length < 7 ||
    (urlParts issue_url).getD 2 [] != str "github.com" ||
    (urlParts issue_url).getD 5 [] != str "issues"

/-- The `Authorization` header dictionary built at agent.py lines 117-119:
one `Bearer` entry exactly when `GITHUB_TOKEN` is set and non-empty
(the walrus `if token := os.getenv("GITHUB_TOKEN"):`). -/
def authHeaders (github_token : Option Str) : List (Str × Str) :=
  match pyTruthy github_token with
  | some token => [(str "Authorization", str "Bearer " ++ token)]
  | none => []

/-- The tool `get_github_issue` (agent.py lines 104-134).
`github_token` is the `GITHUB_TOKEN` environment value and `http` the
behaviour of the network; every issued request is recorded. -/
def get_github_issue (github_token : Option Str) (http : HttpGet → HttpOutcome)
    (issue_url : Str) : ToolRun :=
  let callLine := str "[TOOL CALL] get_github_issue: " ++ issue_url
  if issueUrlRejected issue_url then
    ⟨str "Error: Invalid GitHub issue URL", [], [callLine]⟩
  else
    let parts := urlParts issue_url
    let owner := parts.getD 3 []
    let repo := parts.getD 4 []
    let issue_num := parts.getD 6 []
    let api_url := str "https://api.github.com/repos/" ++ owner ++ str "/" ++ repo ++
      str "/issues/" ++ issue_num
    let req : HttpGet := ⟨api_url, authHeaders github_token, 10⟩
    match http req with
    | .success titleField bodyField =>
      let title := titleField.getD (str "No title")
      let body := bodyField.getD (str "No description")
      ⟨str "**Title:** " ++ title ++ str "\n\n**Body:**\n" ++ body, [req],
        [callLine, str "[TOOL RESULT] Fetched issue #" ++ issue_num ++ str ": " ++ title]⟩
    | .failure e =>
      ⟨str "Error: " ++ e, [req], [callLine, str "[TOOL ERROR] " ++ e]⟩

/-- The tool `send_email` (agent.py lines 137-149): prints its trace and
returns a success string; it performs no outbound request. -/
def send_email (to_addr subject body : Str) : ToolRun :=
  let bodyLine :=
    if body.length > 80 then str "  Body: " ++ body.take 80 ++ str "..."
    else str "  Body: " ++ body
  ⟨str "Email sent successfully to " ++ to_addr, [],
    [str "[TOOL CALL] send_email", str "  To: " ++ to_addr, str "  Subject: " ++ subject,
      bodyLine, str "[TOOL RESULT] Email sent to " ++ to_addr]⟩

/-- Follows the wording of the spec, for comparison with the check in the code: the
input decomposes (after stripping trailing slashes) into exactly the
segments `https:` `/` `/` `github.com` `/` owner `/` repo `/` `issues`
`/` number, with owner and repo non-empty and the number a non-empty
digit string. -/
def specShapedIssueUrl (url : Str) : Bool :=
  match urlParts url with
  | [sch, emp, host, owner, repo, seg, num] =>
    sch == str "https:" && emp == str "" && host == str "github.com" &&
      seg == str "issues" && !owner.isEmpty && !repo.isEmpty &&
      !num.isEmpty && num.all Char.isDigit
  | _ => false

/-- The process environment as read by the program: each field is one
environment variable, `none` when unset. -/
structure Env where
  llm_provider : Option Str
  model_name : Option Str
  openai_api_key : Option Str
  anthropic_api_key : Option Str
  gemini_api_key : Option Str
  github_token : Option Str
deriving DecidableEq

/-- The keys of the `defaults` dictionary (agent.py lines 45-49), which
is also the supported-provider set checked at line 51. -/
def supportedProviders : List Str := [str "openai", str "anthropic", str "gemini"]

/-- `os.getenv("LLM_PROVIDER", "anthropic").lower()` (agent.py line 27). -/
def effectiveProvider (env : Env) : Str :=
  pyLower (env.llm_provider.getD (str "anthropic"))

/-- The `archestra_urls` dictionary (agent.py lines 31-35), as a lookup
over the three provider keys. -/
def archestra_url (provider : Str) : Option Str :=
  if provider == str "openai" then some (str "http://localhost:9000/v1/openai")
  else if provider == str "anthropic" then some (str "http://localhost:9000/v1/anthropic")
  else if provider == str "gemini" then some (str "http://localhost:9000/v1/gemini/v1beta")
  else none

/-- The `direct_urls` dictionary (agent.py lines 38-42); gemini maps to
`None` (uses the SDK default). -/
def direct_url (provider : Str) : Option Str :=
  if provider == str "openai" then some (str "https://api.openai.com/v1")
  else if provider == str "anthropic" then some (str "https://api.anthropic.com")
  else none

/-- The `defaults` dictionary of model names (agent.py lines 45-49). -/
def default_model (provider : Str) : Str :=
  if provider == str "openai" then str "gpt-4o"
  else if provider == str "anthropic" then str "claude-sonnet-4-5-20250929"
  else str "gemini-2.0-flash-exp"

/-- `model = model_name or defaults[provider]` (agent.py line 56). -/
def chosenModel (env : Env) : Str :=
  (pyTruthy env.model_name).getD (default_model (effectiveProvider env))

/-- `base_url = archestra_urls[provider] if secure else direct_urls[provider]`
(agent.py line 57). -/
def chosenBaseUrl (env : Env) (secure : Bool) : Option Str :=
  if secure then archestra_url (effectiveProvider env)
  else direct_url (effectiveProvider env)

/-- An ASCII single-quote character, used in the unknown-provider message. -/
def squote : Str := [Char.ofNat 39]

/-- The banner printed at agent.py lines 59-63: provider, model, endpoint
(only when `base_url` is truthy) and mode. -/
def configLines (env : Env) (secure : Bool) : List Str :=
  [str "\nProvider: " ++ effectiveProvider env, str "Model: " ++ chosenModel env] ++
    (match pyTruthy (chosenBaseUrl env secure) with
     | some u => [str "Endpoint: " ++ u]
     | none => []) ++
    [str "Mode: " ++ (if secure then str "Archestra-secured" else str "Direct (vulnerable)") ++
      str "\n"]

/-- The LLM client object the function returns, one constructor per
provider SDK; for gemini the optional `client_options` api endpoint. -/
inductive LlmClient where
  | chatOpenAI (model api_key : Str) (base_url : Option Str)
  | chatAnthropic (model api_key : Str) (base_url : Option Str)
  | chatGoogleGenerativeAI (model google_api_key : Str) (api_endpoint : Option Str)
deriving DecidableEq

/-- Result of `get_llm`: either `sys.exit(code)` after printing `stdout`,
a constructed client (with the banner printed), or the implicit Python
`None` fall-through (unreachable for supported providers). -/
inductive GetLlmResult where
  | exitCode (code : Nat) (stdout : List Str)
  | client (c : LlmClient) (stdout : List Str)
  | pyNone (stdout : List Str)
deriving DecidableEq

/-- `get_llm` (agent.py lines 25-101): provider selection, the
unknown-provider and missing-key fatal exits, and client construction. -/
def get_llm (env : Env) (secure : Bool) : GetLlmResult :=
  let provider := effectiveProvider env
  if !(supportedProviders.contains provider) then
    .exitCode 1 [str "Error: Unknown provider " ++ squote ++ provider ++ squote,
      str "Supported: openai, anthropic, gemini"]
  else
    let model := chosenModel env
    let base_url := chosenBaseUrl env secure
    let out := configLines env secure
    if provider == str "openai" then
      match pyTruthy env.openai_api_key with
      | none => .exitCode 1 (out ++ [str "Error: OPENAI_API_KEY not set"])
      | some api_key => .client (.chatOpenAI model api_key base_url) out
    else if provider == str "anthropic" then
      match pyTruthy env.anthropic_api_key with
      | none => .exitCode 1 (out ++ [str "Error: ANTHROPIC_API_KEY not set"])
      | some api_key => .client (.chatAnthropic model api_key base_url) out
    else if provider == str "gemini" then
      match pyTruthy env.gemini_api_key with
      | none => .exitCode 1 (out ++ [str "Error: GEMINI_API_KEY not set"])
      | some api_key =>
        if secure then .client (.chatGoogleGenerativeAI model api_key (pyTruthy base_url)) out
        else .client (.chatGoogleGenerativeAI model api_key none) out
    else .pyNone out

/-- What the health-check GET to `http://localhost:9000/health` did:
answered with some status code, or raised a `RequestException`. -/
inductive HealthOutcome where
  | status (code : Nat)
  | unreachable
deriving DecidableEq

/-- Outcome of the secure-mode pre-check in `main`: the printed lines and
`some code` when the process exits, `none` when it proceeds to the run. -/
structure PreCheck where
  stdout : List Str
  exitWith : Option Nat
deriving DecidableEq

/-- The Archestra availability check of `main` (agent.py lines 234-242),
performed only in secure mode: a non-200 answer prints a warning and
continues; only a `RequestException` exits (code 1) with the hint. -/
def archestraPreCheck (health : HealthOutcome) : PreCheck :=
  match health with
  | .status code =>
    if code != 200 then ⟨[str "Warning: Archestra may not be running properly"], none⟩
    else ⟨[], none⟩
  | .unreachable =>
    ⟨[str "Error: Cannot connect to Archestra Platform",
      str "Start it with: docker run -p 9000:9000 -p 3000:3000 archestra/platform"], some 1⟩

/-- A model-produced tool-call request: tool name plus arguments
(spec section 3, DATA MODEL). -/
structure ToolCallRequest where
  tool_name : Str
  arguments : List (Str × Str)
deriving DecidableEq

/-- One model answer: either a final text or a batch of tool calls
(spec section 4.3, the `AssistantTurn` union). -/
inductive AssistantTurn where
  | final (text : Str)
  | toolCalls (calls : List ToolCallRequest)
deriving DecidableEq

/-- Whether a model answer requests tool calls. -/
def AssistantTurn.isToolCall : AssistantTurn → Bool
  | .final _ => false
  | .toolCalls _ => true

/-- A conversation turn (spec section 3, `ConversationTurn`). -/
inductive ConversationTurn where
  | system (text : Str)
  | user (text : Str)
  | assistant (turn : AssistantTurn)
  | observation (tool_name : Str) (result : Str)
deriving DecidableEq

/-- Result of one agent run: the final output, whether it ended by the
turn-limit guard, how many model invocations happened, and the final
conversation transcript. -/
structure LoopResult where
  finalOutput : Str
  turnLimited : Bool
  modelCalls : Nat
  conversation : List ConversationTurn
deriving DecidableEq

/-- The sentinel final output reported when the turn limit is reached. -/
def turnLimitMessage : Str := str "Agent stopped: turn limit exceeded"

/-- Modelled from the spec: the Agent Loop of section 4.4 with its
`max_turns` termination guard.  The concrete loop is inside the external
`AgentExecutor` that `create_agent` (agent.py lines 152-168) constructs,
so it is not in the source of the repository; this definition follows the
state machine of the spec.  Each recursive level spends one remaining turn:
a final answer stops with that text; a tool-call answer appends the
assistant turn and the observations (in request order) and loops; when
the allowance is exhausted the loop stops with the turn-limit sentinel. -/
def agentLoop (model : List ConversationTurn → AssistantTurn)
    (runTool : ToolCallRequest → Str) :
    Nat → List ConversationTurn → LoopResult
  | 0, conv => ⟨turnLimitMessage, true, 0, conv⟩
  | Nat.succ fuel, conv =>
    match model conv with
    | .final text => ⟨text, false, 1, conv ++ [.assistant (.final text)]⟩
    | .toolCalls calls =>
      let withAssistant := conv ++ [.assistant (.toolCalls calls)]
      let obs := calls.map (fun c => ConversationTurn.observation c.tool_name (runTool c))
      let rest := agentLoop model runTool fuel (withAssistant ++ obs)
      ⟨rest.finalOutput, rest.turnLimited, rest.modelCalls + 1, rest.conversation⟩

/-- The conversation seeding of spec section 4.4: a system turn plus the
request of the user. -/
def seedConversation (system_text user_text : Str) : List ConversationTurn :=
  [.system system_text, .user user_text]

/-- Claim C2: for every well-typed triple, send_email performs no
outbound I/O and deterministically returns the success string
"Email sent successfully to {to}". -/
theorem send_email_pure_success (to_addr subject body : Str) :
    (send_email to_addr subject body).requests = [] ∧
    (send_email to_addr subject body).result = str "Email sent successfully to " ++ to_addr :=
  ⟨rfl, rfl⟩

/-- Claim C10: provider selection defaults to anthropic when the
LLM_PROVIDER variable is unset, the configured value is lower-cased
before comparison, and "OpenAI" therefore selects the openai provider
rather than failing as unrecognized. -/
theorem provider_default_and_case_insensitive :
    (∀ mk ok ak gk gt, effectiveProvider ⟨none, mk, ok, ak, gk, gt⟩ = str "anthropic") ∧
    (∀ p mk ok ak gk gt, effectiveProvider ⟨some p, mk, ok, ak, gk, gt⟩ = pyLower p) ∧
    (get_llm ⟨some (str "OpenAI"), none, some (str "k"), none, none, none⟩ false =
      .client (.chatOpenAI (str "gpt-4o") (str "k") (some (str "https://api.openai.com/v1")))
        (configLines ⟨some (str "OpenAI"), none, some (str "k"), none, none, none⟩ false)) :=
  ⟨fun _ _ _ _ _ => rfl, fun _ _ _ _ _ _ => rfl, by decide⟩

/-- Claim C5: an effective provider value outside the supported set is a
fatal configuration error: get_llm exits with code 1, reporting the
unrecognized value and the list of supported values, before any client
is constructed. -/
theorem unknown_provider_fatal (env : Env) (secure : Bool)
    (h : supportedProviders.contains (effectiveProvider env) = false) :
    get_llm env secure =
      .exitCode 1 [str "Error: Unknown provider " ++ squote ++ effectiveProvider env ++ squote,
        str "Supported: openai, anthropic, gemini"] := by
  simp only [get_llm, h, Bool.not_false, if_true]

theorem unknown_provider_fatal_witness :
    get_llm ⟨some (str "grok"), none, none, none, none, none⟩ false =
      .exitCode 1 [str "Error: Unknown provider " ++ squote ++
          effectiveProvider ⟨some (str "grok"), none, none, none, none, none⟩ ++ squote,
        str "Supported: openai, anthropic, gemini"] :=
  unknown_provider_fatal ⟨some (str "grok"), none, none, none, none, none⟩ false (by decide)

/-- Claim C6: for each supported provider, a missing required API key is
a fatal error: get_llm prints a message naming the missing key and exits
with code 1 before any client is constructed. -/
theorem missing_api_key_fatal (env : Env) (secure : Bool) :
    (effectiveProvider env = str "openai" → env.openai_api_key = none →
      get_llm env secure =
        .exitCode 1 (configLines env secure ++ [str "Error: OPENAI_API_KEY not set"])) ∧
    (effectiveProvider env = str "anthropic" → env.anthropic_api_key = none →
      get_llm env secure =
        .exitCode 1 (configLines env secure ++ [str "Error: ANTHROPIC_API_KEY not set"])) ∧
    (effectiveProvider env = str "gemini" → env.gemini_api_key = none →
      get_llm env secure =
        .exitCode 1 (configLines env secure ++ [str "Error: GEMINI_API_KEY not set"])) := by
  refine ⟨fun hp hk => ?_, fun hp hk => ?_, fun hp hk => ?_⟩ <;>
    simp only [get_llm, hp, hk] <;>
    simp +decide [pyTruthy]

theorem missing_api_key_fatal_witness :
    get_llm ⟨some (str "openai"), none, none, none, none, none⟩ false =
      .exitCode 1 (configLines ⟨some (str "openai"), none, none, none, none, none⟩ false ++
        [str "Error: OPENAI_API_KEY not set"]) :=
  (missing_api_key_fatal ⟨some (str "openai"), none, none, none, none, none⟩ false).1
    (by decide) rfl

/-- Claim C7 (amended): in secure mode the pre-check exits with code 1
and a remediation hint when the proxy is unreachable; a reachable proxy
answering a non-200 status only prints a warning and the run continues. -/
theorem proxy_check_exit_behavior :
    (archestraPreCheck HealthOutcome.unreachable).exitWith = some 1 ∧
    (archestraPreCheck HealthOutcome.unreachable).stdout =
      [str "Error: Cannot connect to Archestra Platform",
       str "Start it with: docker run -p 9000:9000 -p 3000:3000 archestra/platform"] ∧
    (∀ code : Nat, code ≠ 200 →
      archestraPreCheck (HealthOutcome.status code) =
        ⟨[str "Warning: Archestra may not be running properly"], none⟩) ∧
    archestraPreCheck (HealthOutcome.status 200) = ⟨[], none⟩ := by
  refine ⟨rfl, rfl, fun code hc => ?_, by decide⟩
  simp [archestraPreCheck, hc]

theorem proxy_check_exit_behavior_witness :
    archestraPreCheck (HealthOutcome.status 503) =
      ⟨[str "Warning: Archestra may not be running properly"], none⟩ :=
  proxy_check_exit_behavior.2.2.1 503 (by decide)

/-- Claim C7 counterexample: a reachable proxy that answers the health
check with status 500 (unhealthy) does not make the program exit - it
prints a warning and continues. -/
theorem proxy_unhealthy_status_continues :
    (archestraPreCheck (HealthOutcome.status 500)).exitWith = none ∧
    (archestraPreCheck (HealthOutcome.status 500)).stdout =
      [str "Warning: Archestra may not be running properly"] ∧
    (500 : Nat) ≠ 200 := by decide

/-- Claim C9 (spec-modelled): for a model backend that always requests a
tool call, the agent loop stops in its terminal state after exactly
max_turns model invocations, reporting the distinguishable turn-limit
sentinel instead of looping forever. -/
theorem agent_loop_turn_limit (model : List ConversationTurn → AssistantTurn)
    (runTool : ToolCallRequest → Str)
    (h : ∀ conv, (model conv).isToolCall = true) :
    ∀ (max_turns : Nat) (conv : List ConversationTurn),
      (agentLoop model runTool max_turns conv).turnLimited = true ∧
      (agentLoop model runTool max_turns conv).modelCalls = max_turns ∧
      (agentLoop model runTool max_turns conv).finalOutput = turnLimitMessage := by
  intro max_turns
  induction max_turns with
  | zero => exact fun conv => ⟨rfl, rfl, rfl⟩
  | succ n ih =>
    intro conv
    cases hm : model conv with
    | final text =>
      have hcall := h conv
      rw [hm] at hcall
      simp [AssistantTurn.isToolCall] at hcall
    | toolCalls calls =>
      have hrec := ih (conv ++ ConversationTurn.assistant (AssistantTurn.toolCalls calls) ::
        calls.map (fun c => ConversationTurn.observation c.tool_name (runTool c)))
      refine ⟨?_, ?_, ?_⟩ <;>
        simp [agentLoop, hm, hrec.1, hrec.2.1, hrec.2.2]

theorem agent_loop_turn_limit_witness :
    (agentLoop (fun _ => AssistantTurn.toolCalls [⟨str "send_email", []⟩]) (fun _ => str "ok") 3
      (seedConversation (str "sys") (str "user"))).turnLimited = true ∧
    (agentLoop (fun _ => AssistantTurn.toolCalls [⟨str "send_email", []⟩]) (fun _ => str "ok") 3
      (seedConversation (str "sys") (str "user"))).modelCalls = 3 ∧
    (agentLoop (fun _ => AssistantTurn.toolCalls [⟨str "send_email", []⟩]) (fun _ => str "ok") 3
      (seedConversation (str "sys") (str "user"))).finalOutput = turnLimitMessage :=
  agent_loop_turn_limit (fun _ => AssistantTurn.toolCalls [⟨str "send_email", []⟩])
    (fun _ => str "ok") (fun _ => rfl) 3 (seedConversation (str "sys") (str "user"))

/-- Claim C1 (amended): every URL of the exact https shape of the spec passes
the validation in the code; every URL whose stripped segment decomposition is
["https:", "", "github.com", owner, repo, "issues", num] leads to exactly
one outbound request to the corresponding api.github.com URL and, when
the response succeeds, to a success result carrying the fetched title and
body; every string the check in the code rejects yields the literal failure
message with no outbound request. -/
theorem github_url_validation_and_fetch :
    (∀ url : Str, specShapedIssueUrl url = true → issueUrlRejected url = false) ∧
    (∀ (url owner repo num : Str),
      urlParts url = [str "https:", str "", str "github.com", owner, repo, str "issues", num] →
      ∀ (title body : Str) (http : HttpGet → HttpOutcome),
        (∀ r, http r = HttpOutcome.success (some title) (some body)) →
        (get_github_issue none http url).requests =
          [⟨str "https://api.github.com/repos/" ++ owner ++ str "/" ++ repo ++
            str "/issues/" ++ num, [], 10⟩] ∧
        (get_github_issue none http url).result =
          str "**Title:** " ++ title ++ str "\n\n**Body:**\n" ++ body) ∧
    (∀ (github_token : Option Str) (http : HttpGet → HttpOutcome) (url : Str),
      issueUrlRejected url = true →
      get_github_issue github_token http url =
        ⟨str "Error: Invalid GitHub issue URL", [],
          [str "[TOOL CALL] get_github_issue: " ++ url]⟩) := by
  refine ⟨?_, ?_, ?_⟩
  · intro url h
    rw [specShapedIssueUrl] at h
    split at h
    case _ sch emp host owner repo seg num heq =>
      simp only [Bool.and_eq_true, beq_iff_eq] at h
      obtain ⟨⟨⟨⟨⟨⟨⟨h1, h2⟩, h3⟩, h4⟩, h5⟩, h6⟩, h7⟩, h8⟩ := h
      simp [issueUrlRejected, heq, h3, h4]
    case _ => exact absurd h (by simp)
  · intro url owner repo num heq title body http horacle
    have hrej : issueUrlRejected url = false := by
      simp [issueUrlRejected, heq]
    constructor <;>
      simp [get_github_issue, hrej, heq, horacle, authHeaders, pyTruthy]
  · intro github_token http url h
    simp [get_github_issue, h]

theorem github_url_validation_and_fetch_witness :
    (get_github_issue none (fun _ => HttpOutcome.success (some (str "T")) (some (str "B")))
      (str "https://github.com/o/r/issues/1")).requests =
      [⟨str "https://api.github.com/repos/" ++ str "o" ++ str "/" ++ str "r" ++
        str "/issues/" ++ str "1", [], 10⟩] ∧
    (get_github_issue none (fun _ => HttpOutcome.success (some (str "T")) (some (str "B")))
      (str "https://github.com/o/r/issues/1")).result =
      str "**Title:** " ++ str "T" ++ str "\n\n**Body:**\n" ++ str "B" :=
  github_url_validation_and_fetch.2.1 (str "https://github.com/o/r/issues/1")
    (str "o") (str "r") (str "1") (by decide) (str "T") (str "B")
    (fun _ => HttpOutcome.success (some (str "T")) (some (str "B"))) (fun _ => rfl)

/-- Claim C1 counterexample: "http://github.com/o/r/issues/1" is not of
the https shape of the spec, yet the code accepts it and issues an outbound
request instead of returning the invalid-URL failure. -/
theorem github_scheme_not_checked :
    specShapedIssueUrl (str "http://github.com/o/r/issues/1") = false ∧
    (get_github_issue none (fun _ => HttpOutcome.success (some (str "T")) (some (str "B")))
      (str "http://github.com/o/r/issues/1")).result ≠ str "Error: Invalid GitHub issue URL" ∧
    (get_github_issue none (fun _ => HttpOutcome.success (some (str "T")) (some (str "B")))
      (str "http://github.com/o/r/issues/1")).requests ≠ [] := by decide

/-- Claim C3 (amended): on every URL passing validation the tool issues
exactly one outbound GET with a 10-second timeout, whose header dictionary
is the authHeaders of the GITHUB_TOKEN value: a Bearer entry exactly when
the token is set and non-empty, no Authorization header otherwise. -/
theorem github_fetch_single_bounded_request (github_token : Option Str)
    (http : HttpGet → HttpOutcome) (url : Str)
    (h : issueUrlRejected url = false) :
    (get_github_issue github_token http url).requests.length = 1 ∧
    ((get_github_issue github_token http url).requests.head?.map HttpGet.timeout = some 10 ∧
      (get_github_issue github_token http url).requests.head?.map HttpGet.headers =
        some (authHeaders github_token)) ∧
    (authHeaders none = [] ∧ authHeaders (some []) = [] ∧
      ∀ t : Str, t ≠ [] →
        authHeaders (some t) = [(str "Authorization", str "Bearer " ++ t)]) := by
  refine ⟨?_, ⟨?_, ?_⟩, rfl, rfl, fun t ht => ?_⟩
  · simp only [get_github_issue, h, Bool.false_eq_true, if_false]
    cases http ⟨str "https://api.github.com/repos/" ++ (urlParts url).getD 3 [] ++ str "/" ++
        (urlParts url).getD 4 [] ++ str "/issues/" ++ (urlParts url).getD 6 [],
        authHeaders github_token, 10⟩ <;> rfl
  · simp only [get_github_issue, h, Bool.false_eq_true, if_false]
    cases http ⟨str "https://api.github.com/repos/" ++ (urlParts url).getD 3 [] ++ str "/" ++
        (urlParts url).getD 4 [] ++ str "/issues/" ++ (urlParts url).getD 6 [],
        authHeaders github_token, 10⟩ <;> rfl
  · simp only [get_github_issue, h, Bool.false_eq_true, if_false]
    cases http ⟨str "https://api.github.com/repos/" ++ (urlParts url).getD 3 [] ++ str "/" ++
        (urlParts url).getD 4 [] ++ str "/issues/" ++ (urlParts url).getD 6 [],
        authHeaders github_token, 10⟩ <;> rfl
  · simp [authHeaders, pyTruthy, ht]

theorem github_fetch_single_bounded_request_witness :
    (get_github_issue (some (str "tk")) (fun _ => HttpOutcome.failure (str "boom"))
      (str "https://github.com/o/r/issues/2")).requests.length = 1 ∧
    (get_github_issue (some (str "tk")) (fun _ => HttpOutcome.failure (str "boom"))
      (str "https://github.com/o/r/issues/2")).requests.head?.map HttpGet.timeout = some 10 ∧
    (get_github_issue (some (str "tk")) (fun _ => HttpOutcome.failure (str "boom"))
      (str "https://github.com/o/r/issues/2")).requests.head?.map HttpGet.headers =
      some (authHeaders (some (str "tk"))) := by
  have h := github_fetch_single_bounded_request (some (str "tk"))
    (fun _ => HttpOutcome.failure (str "boom")) (str "https://github.com/o/r/issues/2") (by decide)
  exact ⟨h.1, h.2.1.1, h.2.1.2⟩

/-- Claim C3 counterexample: with GITHUB_TOKEN present but equal to the
empty string, the credential is present yet the one outbound request
carries no Authorization header. -/
theorem github_empty_token_no_header :
    (some (str "") : Option Str).isSome = true ∧
    (get_github_issue (some (str "")) (fun _ => HttpOutcome.failure (str "x"))
      (str "https://github.com/o/r/issues/1")).requests =
      [⟨str "https://api.github.com/repos/o/r/issues/1", [], 10⟩] := by decide

/-- Claim C4: on a validated URL, a transport failure of the outbound
request is recovered locally: the tool returns a failure string that
carries the underlying error text, and the (total) function never lets
the failure escape. -/
theorem github_transport_error_recovered (github_token : Option Str) (url e : Str)
    (h : issueUrlRejected url = false) :
    (get_github_issue github_token (fun _ => HttpOutcome.failure e) url).result =
      str "Error: " ++ e ∧
    e <:+ (get_github_issue github_token (fun _ => HttpOutcome.failure e) url).result ∧
    (get_github_issue github_token (fun _ => HttpOutcome.failure e) url).requests.length = 1 := by
  have hres : (get_github_issue github_token (fun _ => HttpOutcome.failure e) url).result =
      str "Error: " ++ e := by
    simp [get_github_issue, h]
  refine ⟨hres, ?_, ?_⟩
  · rw [hres]; exact List.suffix_append (str "Error: ") e
  · simp [get_github_issue, h]

theorem github_transport_error_recovered_witness :
    (get_github_issue none (fun _ => HttpOutcome.failure (str "boom"))
      (str "https://github.com/a/b/issues/5")).result = str "Error: " ++ str "boom" ∧
    str "boom" <:+ (get_github_issue none (fun _ => HttpOutcome.failure (str "boom"))
      (str "https://github.com/a/b/issues/5")).result ∧
    (get_github_issue none (fun _ => HttpOutcome.failure (str "boom"))
      (str "https://github.com/a/b/issues/5")).requests.length = 1 :=
  github_transport_error_recovered none (str "https://github.com/a/b/issues/5") (str "boom")
    (by decide)

/-- Claim C8 (amended): every tool invocation writes its call trace line
to stdout; on a URL passing validation get_github_issue also writes a
result (or error) line, and send_email always writes both its call line
and its result line; but on an invalid URL the failure result is
returned without a result trace line. -/
theorem tool_invocations_traced :
    (∀ (github_token : Option Str) (http : HttpGet → HttpOutcome) (url : Str),
      (get_github_issue github_token http url).trace.head? =
        some (str "[TOOL CALL] get_github_issue: " ++ url)) ∧
    (∀ (github_token : Option Str) (http : HttpGet → HttpOutcome) (url : Str),
      issueUrlRejected url = false → (get_github_issue github_token http url).trace.length = 2) ∧
    (∀ (github_token : Option Str) (url e : Str), issueUrlRejected url = false →
      (get_github_issue github_token (fun _ => HttpOutcome.failure e) url).trace.getLast? =
        some (str "[TOOL ERROR] " ++ e)) ∧
    (∀ (github_token : Option Str) (http : HttpGet → HttpOutcome) (url : Str),
      issueUrlRejected url = true →
      (get_github_issue github_token http url).trace =
        [str "[TOOL CALL] get_github_issue: " ++ url]) ∧
    (∀ to_addr subject body : Str,
      (send_email to_addr subject body).trace.head? = some (str "[TOOL CALL] send_email") ∧
      (send_email to_addr subject body).trace.getLast? =
        some (str "[TOOL RESULT] Email sent to " ++ to_addr)) := by
  refine ⟨?_, ?_, ?_, ?_, ?_⟩
  · intro github_token http url
    cases h : issueUrlRejected url
    · simp only [get_github_issue, h, Bool.false_eq_true, if_false]
      cases http ⟨str "https://api.github.com/repos/" ++ (urlParts url).getD 3 [] ++ str "/" ++
          (urlParts url).getD 4 [] ++ str "/issues/" ++ (urlParts url).getD 6 [],
          authHeaders github_token, 10⟩ <;> rfl
    · simp [get_github_issue, h]
  · intro github_token http url h
    simp only [get_github_issue, h, Bool.false_eq_true, if_false]
    cases http ⟨str "https://api.github.com/repos/" ++ (urlParts url).getD 3 [] ++ str "/" ++
        (urlParts url).getD 4 [] ++ str "/issues/" ++ (urlParts url).getD 6 [],
        authHeaders github_token, 10⟩ <;> rfl
  · intro github_token url e h
    simp [get_github_issue, h]
  · intro github_token http url h
    simp [get_github_issue, h]
  · intro to_addr subject body
    exact ⟨rfl, by simp [send_email]⟩

theorem tool_invocations_traced_witness :
    (get_github_issue none (fun _ => HttpOutcome.success none none)
      (str "https://github.com/a/b/issues/9")).trace.length = 2 :=
  tool_invocations_traced.2.1 none (fun _ => HttpOutcome.success none none)
    (str "https://github.com/a/b/issues/9") (by decide)

/-- Claim C8 counterexample: on the invalid input "foo" the tool prints
only the invocation line; its failure result is returned but never
written to stdout, so invocation and result are not both traced. -/
theorem invalid_url_result_not_traced :
    (get_github_issue none (fun _ => HttpOutcome.success none none) (str "foo")).result =
      str "Error: Invalid GitHub issue URL" ∧
    (get_github_issue none (fun _ => HttpOutcome.success none none) (str "foo")).trace =
      [str "[TOOL CALL] get_github_issue: foo"] := by decide
